import Mathlib

/-!
Verification development for a peer-to-peer TCP messaging CLI.

The program keeps a singleton listening endpoint (`Server`), a table of
outbound peer connections (`ConnectionsManager`), and a set of line-oriented
commands (`connect`, `list`, `terminate`, `send`, ...).  This file gives a
shallow embedding of that code: mutable singletons become explicit state
records passed through functions, thrown exceptions become `Except ProgErr`,
and `net.Socket` objects become `Socket` records addressed by their index
(`sid`) into a socket store held in the manager (mirroring the fact that in
the source a `Connection` holds a reference to a socket object that outlives
its table entry).  Asynchronous socket events (the handlers registered with
`socket.on` in `addConnection`) are modelled as explicit event-step
functions (`ConnectionsManager.applyEvent`).  Console logging is either
dropped or returned as a string alongside the state.
-/

/-- Error taxonomy of the program (the `ProgramError` class hierarchy).
The payload is the raw constructor-argument message. -/
inductive ProgErr where
  | ipError (message : String)
  | invalidPort (message : String)
  | invalidArguments (message : String)
  | connectionError (message : String)
deriving DecidableEq, Repr

/-- Rendered message of an error, mirroring the prefixing done by the
`InvalidPortError` and `InvalidArgumentsError` constructors (an empty
payload models the optional/absent constructor argument). -/
def ProgErr.rendered : ProgErr → String
  | .ipError m => m
  | .invalidPort m =>
      if m = "" then "Invalid port number" else "Invalid port number:\n\t " ++ m
  | .invalidArguments m =>
      if m = "" then "Invalid argument(s)" else "Invalid argument(s):\n\t " ++ m
  | .connectionError m => m

/-- JS whitespace skipped by `parseInt` (the forms relevant to this CLI). -/
def isJsWhitespace (c : Char) : Bool :=
  c = ' ' || c = '\t' || c = '\n' || c = '\r'

/-- Value of a run of decimal digit characters. -/
def digitsToNat (ds : List Char) : Nat :=
  ds.foldl (fun acc c => acc * 10 + (c.toNat - 48)) 0

/-- Optional sign consumed by `parseInt` before the digit run. -/
def parseSign (cs : List Char) : Int × List Char :=
  match cs with
  | [] => (1, [])
  | c :: rest =>
      if c = '-' then (-1, rest)
      else if c = '+' then (1, rest)
      else (1, c :: rest)

/-- JavaScript `parseInt(s, 10)`: skip leading whitespace, read an optional
sign and then the longest run of decimal digits; `NaN` (here `none`) if that
run is empty.  `parseInt` never yields a non-integer, so the source's
`Number.isInteger` re-checks are subsumed by the `Option`. -/
def parseIntJS (s : String) : Option Int :=
  let cs := s.data.dropWhile isJsWhitespace
  let sc := parseSign cs
  let ds := sc.2.takeWhile Char.isDigit
  if ds.isEmpty then none else some (sc.1 * (digitsToNat ds : Int))

/-- A `Port` wraps the JS number handed to `new Port(...)`; `nan` records
that the number was `NaN` (from a failed `parseInt`). -/
structure Port where
  value : Int
  nan : Bool := false
deriving DecidableEq, Repr

/-- `Port.isValid`: throws `InvalidArgumentsError` when the value is not an
integer (NaN) or is `<= 1024` or `>= 65535`; otherwise returns `true`.
(It never returns `false`.) -/
def Port.isValid (p : Port) : Except ProgErr Bool :=
  if p.nan ∨ p.value ≤ 1024 ∨ 65535 ≤ p.value then
    .error (.invalidArguments "Port should be within [1024, 65535]")
  else .ok true

/-- `new Port(parseInt(s, 10))`: a failed parse stores `NaN`. -/
def portFromParse (s : String) : Port :=
  match parseIntJS s with
  | some v => { value := v }
  | none => { value := 0, nan := true }

/-- Split a character list at every `'.'` (the group structure imposed by
the IPv4 regex); adjacent dots and boundary dots give empty groups. -/
def splitOnDot (cs : List Char) : List (List Char) :=
  match cs with
  | [] => [[]]
  | c :: rest =>
      if c = '.' then [] :: splitOnDot rest
      else
        match splitOnDot rest with
        | g :: gs => (c :: g) :: gs
        | [] => [[c]]

/-- One group of the IPv4 regex `\d{1,3}`: one to three decimal digits. -/
def ipGroup (g : List Char) : Bool :=
  decide (1 ≤ g.length) && decide (g.length ≤ 3) && g.all Char.isDigit

/-- The `isIPv4` predicate: the regex `^(\d{1,3}\.){3}\d{1,3}$`, i.e. four
dot-separated runs of one to three digits.  Note the regex does not bound
the numeric value of a group by 255. -/
def isIPv4 (ip : String) : Bool :=
  match splitOnDot ip.data with
  | [a, b, c, d] => ipGroup a && ipGroup b && ipGroup c && ipGroup d
  | _ => false

/-- `createIPv4`: returns the string as a branded IPv4, or throws `IPError`. -/
def createIPv4 (ip : String) : Except ProgErr String :=
  if isIPv4 ip then .ok ip
  else .error (.ipError ("\"" ++ ip ++ "\" is not a valid IPv4 address!"))

/-- State of one outbound `net.Socket`: whether a connect attempt is in
flight, whether it has been destroyed, and the data written on it. -/
structure Socket where
  connecting : Bool
  destroyed : Bool
  written : List String
deriving DecidableEq, Repr

/-- `new net.Socket()`. -/
def Socket.fresh : Socket := { connecting := false, destroyed := false, written := [] }

/-- One entry of the connection table.  `sid` is the index of the entry's
socket in the manager's socket store. -/
structure Connection where
  id : Int
  remoteIP : String
  remotePort : Port
  sid : Nat
deriving DecidableEq, Repr

/-- The `ConnectionsManager` singleton: ordered table of connections, the
`_nextId` counter, and the store of every socket ever created (sockets are
referenced by index and survive removal of their table entry). -/
structure ConnectionsManager where
  connections : List Connection
  nextId : Int
  sockets : List Socket
deriving DecidableEq, Repr

/-- The manager as built by its private constructor. -/
def emptyManager : ConnectionsManager :=
  { connections := [], nextId := 1, sockets := [] }

/-- `connectSocket`: issue the connect attempt only if the socket is neither
already connecting nor destroyed (sets `connecting`; completion arrives
later as a separate `connected` event). -/
def ConnectionsManager.connectSocket (m : ConnectionsManager) (conn : Connection) :
    ConnectionsManager :=
  match m.sockets[conn.sid]? with
  | some s =>
      if !s.connecting && !s.destroyed then
        { m with sockets := m.sockets.set conn.sid { s with connecting := true } }
      else m
  | none => m

/-- `socket.destroy()` on the socket with index `sid`. -/
def ConnectionsManager.destroySocket (m : ConnectionsManager) (sid : Nat) :
    ConnectionsManager :=
  match m.sockets[sid]? with
  | some s =>
      { m with sockets := m.sockets.set sid { s with connecting := false, destroyed := true } }
  | none => m

/-- `socket.write(msg)` on the socket with index `sid`. -/
def ConnectionsManager.writeSocket (m : ConnectionsManager) (sid : Nat) (msg : String) :
    ConnectionsManager :=
  match m.sockets[sid]? with
  | some s =>
      { m with sockets := m.sockets.set sid { s with written := s.written ++ [msg] } }
  | none => m

/-- The `forEach((connection, index) => connection.id = index + 1)` loop of
`updateConnectionIds`, started at index `i`. -/
def updateIdsFrom : Nat → List Connection → List Connection
  | _, [] => []
  | i, c :: rest => { c with id := (i : Int) + 1 } :: updateIdsFrom (i + 1) rest

/-- `updateConnectionIds`: renumber every entry to its index plus one and
reset `_nextId` to the table length plus one. -/
def ConnectionsManager.updateConnectionIds (m : ConnectionsManager) : ConnectionsManager :=
  { m with connections := updateIdsFrom 0 m.connections,
           nextId := (m.connections.length : Int) + 1 }

/-- `addConnection(remoteIP, remotePort)`: validate, create a fresh socket
and a `Connection` carrying the current `_nextId`, append it, issue the
connect attempt, and increment `_nextId`.  The handlers registered with
`socket.on('connect')` / `socket.on('error')` are modelled by
`ConnectionsManager.applyEvent` below.  The JS guard also tests `!remoteIP`
(empty-string falsiness) and `!remotePort` (never true for an object). -/
def ConnectionsManager.addConnection (m : ConnectionsManager) (remoteIP : String)
    (remotePort : Port) : Except ProgErr ConnectionsManager :=
  match remotePort.isValid with
  | .error e => .error e
  | .ok v =>
      if v = false ∨ remoteIP = "" then .error (.invalidArguments "")
      else
        let conn : Connection :=
          { id := m.nextId, remoteIP := remoteIP, remotePort := remotePort,
            sid := m.sockets.length }
        let m1 : ConnectionsManager :=
          { m with sockets := m.sockets ++ [Socket.fresh],
                   connections := m.connections ++ [conn] }
        let m2 := m1.connectSocket conn
        .ok { m2 with nextId := m2.nextId + 1 }

/-- `removeConnection(id)`: find the entry by identifier (`findIndex`),
throw `ConnectionError` if absent, else destroy its socket, splice it out
and renumber. -/
def ConnectionsManager.removeConnection (m : ConnectionsManager) (id : Int) :
    Except ProgErr ConnectionsManager :=
  match m.connections.findIdx? (fun c => c.id == id) with
  | none => .error (.connectionError ("Connection with id " ++ toString id ++ " not found!"))
  | some index =>
      let m1 :=
        match m.connections[index]? with
        | some conn => m.destroySocket conn.sid
        | none => m
      let m2 := { m1 with connections := m1.connections.eraseIdx index }
      .ok m2.updateConnectionIds

/-- `listConnections()`: header line plus one `id\tIP\tport` row per entry,
joined by newlines; a pure read. -/
def ConnectionsManager.listConnections (m : ConnectionsManager) : String :=
  "id\tIP Address\tPort\n" ++
    String.intercalate "\n"
      (m.connections.map
        (fun c => toString c.id ++ "\t" ++ c.remoteIP ++ "\t" ++ toString c.remotePort.value))

/-- `sendMessage(connectionId, message)`: find the entry (`find`), throw
`ConnectionError` if absent, else write the raw message on its socket. -/
def ConnectionsManager.sendMessage (m : ConnectionsManager) (connectionId : Int)
    (message : String) : Except ProgErr ConnectionsManager :=
  match m.connections.find? (fun c => c.id == connectionId) with
  | none =>
      .error (.connectionError
        ("Connection with id " ++ toString connectionId ++ " not found!"))
  | some conn => .ok (m.writeSocket conn.sid message)

/-- Asynchronous events delivered on an outbound socket, identified by its
store index. -/
inductive SockEvent where
  | connected (sid : Nat)
  | errored (sid : Nat)
deriving DecidableEq, Repr

/-- The handlers registered in `addConnection`: on `'connect'` the code runs
`updateConnectionIds()` and writes `' joined'` on the socket; on `'error'`
it only logs `'server is offline..'` (the log line is returned as the
second component). -/
def ConnectionsManager.applyEvent (m : ConnectionsManager) :
    SockEvent → ConnectionsManager × List String
  | .connected sid => ((m.updateConnectionIds).writeSocket sid " joined", [])
  | .errored _sid => (m, ["server is offline.."])

/-- The `Server` singleton's observable identity: bound IP and port. -/
structure Server where
  ip : String
  port : Int
deriving DecidableEq, Repr

/-- Process-wide state behind `Server.getInstance`: the static `instance`
field, plus a count of how many times `tcpServer.listen` ran (each run of
the private constructor binds once). -/
structure ServerState where
  inst : Option Server
  bindCount : Nat
deriving DecidableEq, Repr

/-- `Server.getInstance(portNumber)`.  `localIP` stands for the address the
constructor obtains from `getIPAddress()` (an OS query, out of scope).
`parseInt` then the `Port.isValid` call (which throws on a bad range); the
`if (!port.isValid())` arm throwing `InvalidPortError` is kept although
`isValid` never returns `false`.  Only a first call constructs (and binds);
later calls return the stored instance. -/
def Server.getInstance (st : ServerState) (localIP : String) (portNumber : String) :
    Except ProgErr (Server × ServerState) :=
  match parseIntJS portNumber with
  | none => .error (.invalidPort "Please provide a valid integer port number!")
  | some portInt =>
      let port : Port := { value := portInt }
      match port.isValid with
      | .error e => .error e
      | .ok v =>
          if !v then
            .error (.invalidPort "Please provide a valid port number between 1024 and 65535!")
          else
            match st.inst with
            | some srv => .ok (srv, st)
            | none =>
                let srv : Server := { ip := localIP, port := portInt }
                .ok (srv, { inst := some srv, bindCount := st.bindCount + 1 })

/-- Fold a sequence of `getInstance` calls, keeping only the state (a call
that throws leaves the static state as it was). -/
def runGetInstances (st : ServerState) (localIP : String) (ports : List String) :
    ServerState :=
  ports.foldl
    (fun s p =>
      match Server.getInstance s localIP p with
      | .ok r => r.2
      | .error _ => s) st

/-- `ConnectCommand.execute(args)`: exactly two arguments, then
`createIPv4`, `new Port(parseInt(...))`, `isValid`, then delegate to
`addConnection`. -/
def ConnectCommand.execute (m : ConnectionsManager) (args : List String) :
    Except ProgErr ConnectionsManager :=
  match args with
  | [a0, a1] =>
      match createIPv4 a0 with
      | .error e => .error e
      | .ok remoteIP =>
          let remotePort := portFromParse a1
          match remotePort.isValid with
          | .error e => .error e
          | .ok _ => m.addConnection remoteIP remotePort
  | _ => .error (.invalidArguments "Expected 2 arguments: destination and port!")

/-- `ListCommand.execute(args)`: rejects any argument, else prints
`listConnections()`; the manager is returned untouched alongside the
rendered listing. -/
def ListCommand.execute (m : ConnectionsManager) (args : List String) :
    Except ProgErr (ConnectionsManager × String) :=
  if args.length > 0 then
    .error (.invalidArguments "This command does not accept arguments!")
  else .ok (m, m.listConnections)

/-- `TerminateCommand.execute(args)`: rejects only an empty argument list,
parses the first token with `parseInt`, rejects `NaN`, then delegates to
`removeConnection`. -/
def TerminateCommand.execute (m : ConnectionsManager) (args : List String) :
    Except ProgErr ConnectionsManager :=
  match args with
  | [] => .error (.invalidArguments "Expected a single argument: connectionId!")
  | a0 :: _ =>
      match parseIntJS a0 with
      | none => .error (.invalidArguments "ConnectionId must be a number!")
      | some connectionId => m.removeConnection connectionId

/-- `SendCommand.execute(args)`: needs at least two tokens, parses the
first with `parseInt` (rejecting `NaN`), joins the rest with single spaces,
rejects an empty message, then delegates to `sendMessage`. -/
def SendCommand.execute (m : ConnectionsManager) (args : List String) :
    Except ProgErr ConnectionsManager :=
  match args with
  | a0 :: a1 :: rest =>
      match parseIntJS a0 with
      | none => .error (.invalidArguments "ConnectionId must be a number!")
      | some connectionId =>
          let message := String.intercalate " " (a1 :: rest)
          if message = "" then .error (.invalidArguments "Message cannot be empty!")
          else m.sendMessage connectionId message
  | _ => .error (.invalidArguments "Expected at least 2 arguments: connection id and message!")

/-- The dispatch loop's error recovery: a command that throws leaves the
manager untouched; otherwise its result replaces it. -/
def runCommand (m : ConnectionsManager) (r : Except ProgErr ConnectionsManager) :
    ConnectionsManager :=
  match r with
  | .ok m' => m'
  | .error _ => m

/-- Whether an `Except` result is a success. -/
def exceptOk {α : Type} (r : Except ProgErr α) : Bool :=
  match r with
  | .ok _ => true
  | .error _ => false

/-- One table operation, for stating properties over op sequences. -/
inductive Op where
  | add (remoteIP : String) (remotePort : Port)
  | remove (id : Int)
deriving DecidableEq, Repr

/-- Apply one operation as the dispatch loop would: errors are caught and
leave the table as it was. -/
def applyOp (m : ConnectionsManager) : Op → ConnectionsManager
  | .add ip p => runCommand m (m.addConnection ip p)
  | .remove id => runCommand m (m.removeConnection id)

/-- Run a sequence of operations from the empty table. -/
def runOps (ops : List Op) : ConnectionsManager :=
  ops.foldl applyOp emptyManager

/-- `denseFrom b ids` says `ids = [b, b+1, b+2, ...]`. -/
def denseFrom : Int → List Int → Bool
  | _, [] => true
  | b, i :: rest => i == b && denseFrom (b + 1) rest

/-- Identifier density: the table's identifiers are exactly `1..size` in
order and `_nextId` is `size + 1`. -/
def idsDenseB (m : ConnectionsManager) : Bool :=
  denseFrom 1 (m.connections.map (fun c => c.id)) &&
    (m.nextId == (m.connections.length : Int) + 1)

/-- Well-formedness of a reachable manager state: dense identifiers plus
every entry's socket index pointing into the socket store. -/
def WF (m : ConnectionsManager) : Bool :=
  idsDenseB m && m.connections.all (fun c => decide (c.sid < m.sockets.length))

/-- The identifier-independent payload of an entry. -/
def connView (c : Connection) : String × Int × Nat :=
  (c.remoteIP, c.remotePort.value, c.sid)

/-- Leading digit test on a token. -/
def leadsWithDigit (t : String) : Bool :=
  match t.data with
  | c :: _ => c.isDigit
  | [] => false

/-- Value of the leading digit run of a token. -/
def leadingIntVal (t : String) : Int :=
  (digitsToNat (t.data.takeWhile Char.isDigit) : Int)

/-- Table reached by `connect 10.0.0.5 9000` then `connect 10.0.0.6 9001`
(the worked example of the specification). -/
def mgr2 : ConnectionsManager :=
  runCommand
    (runCommand emptyManager (ConnectCommand.execute emptyManager ["10.0.0.5", "9000"]))
    (ConnectCommand.execute
      (runCommand emptyManager (ConnectCommand.execute emptyManager ["10.0.0.5", "9000"]))
      ["10.0.0.6", "9001"])

/-- Server state after a successful first `getInstance` call with port 8080. -/
def srvSt1 : ServerState :=
  { inst := some { ip := "10.0.0.1", port := 8080 }, bindCount := 1 }


/-! ### Helper lemmas about dense identifier lists -/

theorem denseFrom_append (b : Int) (xs : List Int) (x : Int) :
    denseFrom b (xs ++ [x]) = (denseFrom b xs && (x == b + (xs.length : Int))) := by
  induction xs generalizing b with
  | nil => simp [denseFrom]
  | cons y ys ih =>
      show (y == b && denseFrom (b + 1) (ys ++ [x]))
          = ((y == b && denseFrom (b + 1) ys) && (x == b + ((ys.length + 1 : Nat) : Int)))
      rw [ih (b + 1)]
      have hcast : b + 1 + (ys.length : Int) = b + ((ys.length + 1 : Nat) : Int) := by
        push_cast
        ring
      rw [hcast, Bool.and_assoc]

theorem denseFrom_eq_range (b : Int) (ids : List Int) (h : denseFrom b ids = true) :
    ids = (List.range ids.length).map (fun i : Nat => (i : Int) + b) := by
  induction ids generalizing b with
  | nil => rfl
  | cons x xs ih =>
      have h' : (x == b) = true ∧ denseFrom (b + 1) xs = true := by
        simpa [denseFrom] using h
      have hx : x = b := by simpa using h'.1
      have hxs := ih (b + 1) h'.2
      have hgoal : (List.range (x :: xs).length).map (fun i : Nat => (i : Int) + b)
          = b :: (List.range xs.length).map (fun i : Nat => (i : Int) + (b + 1)) := by
        rw [List.length_cons, List.range_succ_eq_map, List.map_cons, List.map_map]
        congr 1
        · simp
        · apply List.map_congr_left
          intro i _
          simp only [Function.comp_apply]
          push_cast
          ring
      rw [hgoal, hx, ← hxs]

theorem length_updateIdsFrom (i : Nat) (l : List Connection) :
    (updateIdsFrom i l).length = l.length := by
  induction l generalizing i with
  | nil => rfl
  | cons c rest ih => simp [updateIdsFrom, ih]

theorem map_updateIdsFrom {β : Type} (f : Connection → β)
    (hf : ∀ (c : Connection) (x : Int), f { c with id := x } = f c)
    (i : Nat) (l : List Connection) :
    (updateIdsFrom i l).map f = l.map f := by
  induction l generalizing i with
  | nil => rfl
  | cons c rest ih => simp [updateIdsFrom, ih, hf]

theorem denseFrom_updateIdsFrom (i : Nat) (l : List Connection) :
    denseFrom ((i : Int) + 1) ((updateIdsFrom i l).map (fun c => c.id)) = true := by
  induction l generalizing i with
  | nil => rfl
  | cons c rest ih =>
      show (((i : Int) + 1 == (i : Int) + 1)
          && denseFrom ((i : Int) + 1 + 1)
              ((updateIdsFrom (i + 1) rest).map (fun c => c.id))) = true
      have h1 : ((i : Int) + 1 == (i : Int) + 1) = true := by simp
      have h2 := ih (i + 1)
      have hcast : ((i + 1 : Nat) : Int) + 1 = (i : Int) + 1 + 1 := by
        push_cast
        ring
      rw [hcast] at h2
      rw [h1, Bool.true_and, h2]

theorem idsDenseB_updateConnectionIds (m : ConnectionsManager) :
    idsDenseB m.updateConnectionIds = true := by
  simp only [idsDenseB, ConnectionsManager.updateConnectionIds, Bool.and_eq_true, beq_iff_eq]
  constructor
  · have := denseFrom_updateIdsFrom 0 m.connections
    simpa using this
  · simp [length_updateIdsFrom]

theorem findIdx?_cons_pos {α : Type} (p : α → Bool) (c : α) (rest : List α) (s : Nat)
    (h : p c = true) : (c :: rest).findIdx? p s = some s := by
  rw [List.findIdx?_cons, h]
  exact if_pos rfl

theorem findIdx?_cons_neg {α : Type} (p : α → Bool) (c : α) (rest : List α) (s : Nat)
    (h : p c = false) : (c :: rest).findIdx? p s = rest.findIdx? p (s + 1) := by
  rw [List.findIdx?_cons, h]
  exact if_neg (by simp)

theorem findIdx?_denseFrom (l : List Connection) (b : Int) (k s : Nat)
    (h : denseFrom b (l.map (fun c => c.id)) = true) (hk : k < l.length) :
    l.findIdx? (fun c => c.id == b + (k : Int)) s = some (s + k) := by
  induction l generalizing b k s with
  | nil => exact absurd hk (by simp)
  | cons c rest ih =>
      have h' : (c.id == b) = true ∧ denseFrom (b + 1) (rest.map (fun c => c.id)) = true := by
        simpa [denseFrom] using h
      have hc : c.id = b := by simpa using h'.1
      cases k with
      | zero =>
          have hp : (c.id == b + ((0 : Nat) : Int)) = true := by simp [hc]
          rw [findIdx?_cons_pos (fun x => x.id == b + ((0 : Nat) : Int)) c rest s hp]
          simp
      | succ k' =>
          have hp : (c.id == b + ((k' + 1 : Nat) : Int)) = false := by
            simp only [beq_eq_false_iff_ne, ne_eq, hc]
            intro hcontra
            omega
          have hk' : k' < rest.length := by
            have h2 : k' + 1 < rest.length + 1 := by simpa using hk
            omega
          have hrec := ih (b + 1) k' (s + 1) h'.2 hk'
          have hcast : b + 1 + (k' : Int) = b + ((k' + 1 : Nat) : Int) := by
            push_cast
            ring
          rw [hcast] at hrec
          rw [findIdx?_cons_neg (fun x => x.id == b + ((k' + 1 : Nat) : Int)) c rest s hp, hrec]
          congr 1
          omega

theorem getElem?_denseFrom (l : List Connection) (b : Int) (k : Nat) (conn : Connection)
    (h : denseFrom b (l.map (fun c => c.id)) = true) (hc : l[k]? = some conn) :
    conn.id = b + (k : Int) := by
  induction l generalizing b k with
  | nil => simp at hc
  | cons c rest ih =>
      have h' : (c.id == b) = true ∧ denseFrom (b + 1) (rest.map (fun c => c.id)) = true := by
        simpa [denseFrom] using h
      cases k with
      | zero =>
          simp only [List.getElem?_cons_zero, Option.some_inj] at hc
          subst hc
          have := h'.1
          simp only [beq_iff_eq] at this
          simpa using this
      | succ k' =>
          simp only [List.getElem?_cons_succ] at hc
          have := ih (b + 1) k' h'.2 hc
          rw [this]
          push_cast
          ring

/-! ### Socket-store operations touch only the socket store -/

theorem connectSocket_connections (m : ConnectionsManager) (conn : Connection) :
    (m.connectSocket conn).connections = m.connections := by
  unfold ConnectionsManager.connectSocket
  cases m.sockets[conn.sid]? with
  | none => rfl
  | some s =>
      by_cases hb : (!s.connecting && !s.destroyed) = true
      · simp [hb]
      · simp [hb]

theorem connectSocket_nextId (m : ConnectionsManager) (conn : Connection) :
    (m.connectSocket conn).nextId = m.nextId := by
  unfold ConnectionsManager.connectSocket
  cases m.sockets[conn.sid]? with
  | none => rfl
  | some s =>
      by_cases hb : (!s.connecting && !s.destroyed) = true
      · simp [hb]
      · simp [hb]

theorem connectSocket_sockets_length (m : ConnectionsManager) (conn : Connection) :
    (m.connectSocket conn).sockets.length = m.sockets.length := by
  unfold ConnectionsManager.connectSocket
  cases m.sockets[conn.sid]? with
  | none => rfl
  | some s =>
      by_cases hb : (!s.connecting && !s.destroyed) = true
      · simp [hb]
      · simp [hb]

theorem destroySocket_connections (m : ConnectionsManager) (sid : Nat) :
    (m.destroySocket sid).connections = m.connections := by
  unfold ConnectionsManager.destroySocket
  cases m.sockets[sid]? with
  | none => rfl
  | some s => rfl

theorem destroySocket_nextId (m : ConnectionsManager) (sid : Nat) :
    (m.destroySocket sid).nextId = m.nextId := by
  unfold ConnectionsManager.destroySocket
  cases m.sockets[sid]? with
  | none => rfl
  | some s => rfl

theorem destroySocket_sockets_length (m : ConnectionsManager) (sid : Nat) :
    (m.destroySocket sid).sockets.length = m.sockets.length := by
  unfold ConnectionsManager.destroySocket
  cases m.sockets[sid]? with
  | none => rfl
  | some s => simp

theorem writeSocket_connections (m : ConnectionsManager) (sid : Nat) (msg : String) :
    (m.writeSocket sid msg).connections = m.connections := by
  unfold ConnectionsManager.writeSocket
  cases m.sockets[sid]? with
  | none => rfl
  | some s => rfl

theorem writeSocket_nextId (m : ConnectionsManager) (sid : Nat) (msg : String) :
    (m.writeSocket sid msg).nextId = m.nextId := by
  unfold ConnectionsManager.writeSocket
  cases m.sockets[sid]? with
  | none => rfl
  | some s => rfl

/-! ### Preservation of the table well-formedness invariant -/

theorem WF_iff (m : ConnectionsManager) : WF m = true ↔
    (denseFrom 1 (m.connections.map (fun c => c.id)) = true
      ∧ m.nextId = (m.connections.length : Int) + 1
      ∧ ∀ c ∈ m.connections, c.sid < m.sockets.length) := by
  simp [WF, idsDenseB, List.all_eq_true, Bool.and_eq_true, beq_iff_eq, and_assoc]

theorem WF_addConnection (m : ConnectionsManager) (ip : String) (p : Port)
    (h : WF m = true) : WF (runCommand m (m.addConnection ip p)) = true := by
  obtain ⟨hdense, hnext, hsid⟩ := (WF_iff m).mp h
  unfold ConnectionsManager.addConnection
  split
  · simpa [runCommand] using h
  · split
    · simpa [runCommand] using h
    · simp only [runCommand]
      apply (WF_iff _).mpr
      refine ⟨?_, ?_, ?_⟩
      · dsimp only
        rw [connectSocket_connections]
        dsimp only
        simp only [List.map_append, List.map_cons, List.map_nil]
        rw [denseFrom_append, hdense, Bool.true_and, beq_iff_eq, hnext, List.length_map]
        ring
      · dsimp only
        rw [connectSocket_nextId, connectSocket_connections]
        dsimp only
        simp only [List.length_append, List.length_cons, List.length_nil]
        rw [hnext]
        push_cast
        ring
      · dsimp only
        rw [connectSocket_connections, connectSocket_sockets_length]
        dsimp only
        intro c hc
        simp only [List.length_append, List.length_cons, List.length_nil]
        rcases List.mem_append.mp hc with hold | hnew
        · have := hsid c hold
          omega
        · simp only [List.mem_singleton] at hnew
          subst hnew
          dsimp only
          omega

theorem WF_updateConnectionIds_of (X : ConnectionsManager) (index : Nat)
    (hs : ∀ c ∈ X.connections, c.sid < X.sockets.length) :
    WF (({ X with connections := X.connections.eraseIdx index }).updateConnectionIds) = true := by
  apply (WF_iff _).mpr
  refine ⟨?_, ?_, ?_⟩
  · dsimp only [ConnectionsManager.updateConnectionIds]
    have := denseFrom_updateIdsFrom 0 (X.connections.eraseIdx index)
    simpa using this
  · dsimp only [ConnectionsManager.updateConnectionIds]
    rw [length_updateIdsFrom]
  · intro c hc
    dsimp only [ConnectionsManager.updateConnectionIds] at hc ⊢
    have hmem : c.sid ∈ (updateIdsFrom 0 (X.connections.eraseIdx index)).map
        (fun c => c.sid) := List.mem_map_of_mem _ hc
    rw [map_updateIdsFrom (fun c => c.sid) (fun c x => rfl) 0] at hmem
    obtain ⟨c0, hc0mem, hc0⟩ := List.mem_map.mp hmem
    have hb := hs c0 (List.mem_of_mem_eraseIdx hc0mem)
    rw [← hc0]
    exact hb

theorem WF_removeConnection (m : ConnectionsManager) (id : Int)
    (h : WF m = true) : WF (runCommand m (m.removeConnection id)) = true := by
  obtain ⟨hdense, hnext, hsid⟩ := (WF_iff m).mp h
  unfold ConnectionsManager.removeConnection
  split
  case _ => simpa [runCommand] using h
  case _ index heq =>
      cases hg : m.connections[index]? with
      | none =>
          simp only [runCommand, hg]
          exact WF_updateConnectionIds_of m index hsid
      | some conn =>
          simp only [runCommand, hg]
          apply WF_updateConnectionIds_of
          intro c hc
          rw [destroySocket_connections] at hc
          rw [destroySocket_sockets_length]
          exact hsid c hc

theorem WF_applyOp (m : ConnectionsManager) (op : Op) (h : WF m = true) :
    WF (applyOp m op) = true := by
  cases op with
  | add ip p => exact WF_addConnection m ip p h
  | remove id => exact WF_removeConnection m id h

theorem WF_foldl (ops : List Op) (m : ConnectionsManager) (h : WF m = true) :
    WF (ops.foldl applyOp m) = true := by
  induction ops generalizing m with
  | nil => exact h
  | cons op rest ih => exact ih (applyOp m op) (WF_applyOp m op h)

theorem WF_runOps (ops : List Op) : WF (runOps ops) = true :=
  WF_foldl ops emptyManager (by decide)

/-! ### Claim C1 -/

/-- Claim C1: after every finite sequence of `addConnection` and
`removeConnection` operations starting from the empty table, the
identifiers held by the table are exactly `1, 2, ..., size` (in table
order) and the next-identifier counter equals `size + 1`. -/
theorem claim1_identifier_density (ops : List Op) :
    (runOps ops).connections.map (fun c => c.id)
        = (List.range (runOps ops).connections.length).map (fun i : Nat => (i : Int) + 1)
    ∧ (runOps ops).nextId = ((runOps ops).connections.length : Int) + 1 := by
  obtain ⟨hdense, hnext, _⟩ := (WF_iff _).mp (WF_runOps ops)
  constructor
  · have := denseFrom_eq_range 1 _ hdense
    rwa [List.length_map] at this
  · exact hnext

/-! ### Claim C2 -/

/-- Claim C2: for a well-formed table holding `conn` at position `k`,
`removeConnection conn.id` succeeds, destroys that entry's socket, removes
exactly that entry (the remaining payloads are those of the table with
position `k` erased, in order), leaves the renumbered identifiers dense
with the next-identifier counter at `N + 1`, and shrinks the table by one. -/
theorem claim2_remove_renumbers (m : ConnectionsManager) (conn : Connection) (k : Nat)
    (hwf : WF m = true) (hk2 : m.connections[k]? = some conn) :
    exceptOk (m.removeConnection conn.id) = true
    ∧ (runCommand m (m.removeConnection conn.id)).connections.map connView
        = (m.connections.eraseIdx k).map connView
    ∧ idsDenseB (runCommand m (m.removeConnection conn.id)) = true
    ∧ (runCommand m (m.removeConnection conn.id)).connections.length + 1
        = m.connections.length
    ∧ ((runCommand m (m.removeConnection conn.id)).sockets[conn.sid]?).map
        (fun s => s.destroyed) = some true := by
  obtain ⟨hdense, hnext, hsid⟩ := (WF_iff m).mp hwf
  obtain ⟨hk, hkeq⟩ := List.getElem?_eq_some_iff.mp hk2
  have hmem : conn ∈ m.connections := List.getElem?_mem hk2
  have hid : conn.id = 1 + (k : Int) := getElem?_denseFrom m.connections 1 k conn hdense hk2
  have hsidlt : conn.sid < m.sockets.length := hsid conn hmem
  have hfind : List.findIdx? (fun c => c.id == conn.id) m.connections 0 = some k := by
    rw [hid]
    have := findIdx?_denseFrom m.connections 1 k 0 hdense hk
    simpa using this
  have hrem : m.removeConnection conn.id
      = .ok (({ m.destroySocket conn.sid with
          connections := (m.destroySocket conn.sid).connections.eraseIdx k
          }).updateConnectionIds) := by
    unfold ConnectionsManager.removeConnection
    simp only [hfind, hk2]
  have hdsock : ((m.destroySocket conn.sid).sockets[conn.sid]?).map
      (fun s => s.destroyed) = some true := by
    unfold ConnectionsManager.destroySocket
    rw [List.getElem?_eq_getElem hsidlt]
    dsimp only
    rw [List.getElem?_set_self hsidlt]
    rfl
  refine ⟨?_, ?_, ?_, ?_, ?_⟩
  · rw [hrem]
    rfl
  · rw [hrem]
    simp only [runCommand]
    dsimp only [ConnectionsManager.updateConnectionIds]
    rw [map_updateIdsFrom connView (fun c x => rfl) 0, destroySocket_connections]
  · rw [hrem]
    simp only [runCommand]
    exact idsDenseB_updateConnectionIds _
  · rw [hrem]
    simp only [runCommand]
    dsimp only [ConnectionsManager.updateConnectionIds]
    rw [length_updateIdsFrom, destroySocket_connections, List.length_eraseIdx_of_lt hk]
    omega
  · rw [hrem]
    simp only [runCommand]
    dsimp only [ConnectionsManager.updateConnectionIds]
    exact hdsock

/-- Witness for C2, instantiating the theorem on the specification's worked
example: with two connections (ids 1 and 2), terminating id 1 leaves
exactly one entry whose identifier is 1 and whose address and port are
those of the former id-2 entry. -/
theorem claim2_remove_renumbers_witness :
    (exceptOk (mgr2.removeConnection
        ({ id := 1, remoteIP := "10.0.0.5", remotePort := { value := 9000 },
           sid := 0 } : Connection).id) = true
      ∧ (runCommand mgr2 (mgr2.removeConnection 1)).connections.map connView
          = (mgr2.connections.eraseIdx 0).map connView
      ∧ idsDenseB (runCommand mgr2 (mgr2.removeConnection 1)) = true
      ∧ (runCommand mgr2 (mgr2.removeConnection 1)).connections.length + 1
          = mgr2.connections.length
      ∧ ((runCommand mgr2 (mgr2.removeConnection 1)).sockets[(0 : Nat)]?).map
          (fun s => s.destroyed) = some true)
    ∧ (runCommand mgr2 (mgr2.removeConnection 1)).connections
        = [{ id := 1, remoteIP := "10.0.0.6", remotePort := { value := 9001 }, sid := 1 }] :=
  ⟨claim2_remove_renumbers mgr2
      { id := 1, remoteIP := "10.0.0.5", remotePort := { value := 9000 }, sid := 0 } 0
      (by decide) (by decide),
    by decide⟩

/-! ### Claim C3 -/

/-- Counterexample to C3 as stated: `connect 999.1.1.1 80` does not fail
with an IP-resolution error — `999.1.1.1` passes the `isIPv4` regex (which
never checks that a group is at most 255), and the failure actually raised
is the invalid-argument port-range error from `Port.isValid`. -/
theorem claim3_connect999_counterexample :
    isIPv4 "999.1.1.1" = true
    ∧ ConnectCommand.execute emptyManager ["999.1.1.1", "80"]
        = .error (.invalidArguments "Port should be within [1024, 65535]") :=
  ⟨by decide, rfl⟩

/-- Claim C3 amended: `connect 999.1.1.1 80` fails with the invalid-argument
port-range error (not an IP error) and the table is not mutated; in general
`connect` validates the IP against the digit-group regex and the port
against the open range (1024, 65535) before any mutation of the table, and
any failing execution leaves the table unchanged. -/
theorem claim3_connect_validation (m : ConnectionsManager) :
    ConnectCommand.execute m ["999.1.1.1", "80"]
        = .error (.invalidArguments "Port should be within [1024, 65535]")
    ∧ runCommand m (ConnectCommand.execute m ["999.1.1.1", "80"]) = m
    ∧ (∀ ip p : String, isIPv4 ip = false →
        ConnectCommand.execute m [ip, p]
          = .error (.ipError ("\"" ++ ip ++ "\" is not a valid IPv4 address!")))
    ∧ (∀ ip p : String, ∀ v : Int, isIPv4 ip = true → parseIntJS p = some v →
        (v ≤ 1024 ∨ 65535 ≤ v) →
        ConnectCommand.execute m [ip, p]
          = .error (.invalidArguments "Port should be within [1024, 65535]"))
    ∧ (∀ args : List String, ∀ e : ProgErr,
        ConnectCommand.execute m args = .error e →
        runCommand m (ConnectCommand.execute m args) = m) := by
  refine ⟨rfl, rfl, ?_, ?_, ?_⟩
  · intro ip p hip
    have hc : createIPv4 ip
        = Except.error (.ipError ("\"" ++ ip ++ "\" is not a valid IPv4 address!")) := by
      unfold createIPv4
      rw [hip]
      rfl
    show (match createIPv4 ip with
        | Except.error e => Except.error e
        | Except.ok remoteIP =>
            match (portFromParse p).isValid with
            | Except.error e => Except.error e
            | Except.ok _ => m.addConnection remoteIP (portFromParse p))
        = Except.error (.ipError ("\"" ++ ip ++ "\" is not a valid IPv4 address!"))
    rw [hc]
  · intro ip p v hip hp hrange
    have hc : createIPv4 ip = Except.ok ip := by
      unfold createIPv4
      rw [hip]
      rfl
    have hport : portFromParse p = { value := v, nan := false } := by
      unfold portFromParse
      rw [hp]
    have hval : ({ value := v, nan := false } : Port).isValid
        = Except.error (.invalidArguments "Port should be within [1024, 65535]") := by
      unfold Port.isValid
      exact if_pos (Or.inr hrange)
    show (match createIPv4 ip with
        | Except.error e => Except.error e
        | Except.ok remoteIP =>
            match (portFromParse p).isValid with
            | Except.error e => Except.error e
            | Except.ok _ => m.addConnection remoteIP (portFromParse p))
        = Except.error (.invalidArguments "Port should be within [1024, 65535]")
    rw [hc, hport, hval]
  · intro args e herr
    rw [herr]
    rfl

/-- Witness for C3's amended theorem, instantiated on the empty table. -/
theorem claim3_connect_validation_witness :
    ConnectCommand.execute emptyManager ["999.1.1.1", "80"]
        = .error (.invalidArguments "Port should be within [1024, 65535]")
    ∧ runCommand emptyManager (ConnectCommand.execute emptyManager ["999.1.1.1", "80"])
        = emptyManager :=
  ⟨(claim3_connect_validation emptyManager).1,
    (claim3_connect_validation emptyManager).2.1⟩

/-! ### Claims C4 and C5 -/

theorem getInstance_of_inst (st : ServerState) (srv : Server) (localIP q : String)
    (h : st.inst = some srv) :
    Server.getInstance st localIP q
        = .error (.invalidPort "Please provide a valid integer port number!")
    ∨ Server.getInstance st localIP q
        = .error (.invalidArguments "Port should be within [1024, 65535]")
    ∨ Server.getInstance st localIP q = .ok (srv, st) := by
  cases hp : parseIntJS q with
  | none =>
      left
      unfold Server.getInstance
      rw [hp]
  | some v =>
      by_cases hc : (v ≤ 1024 ∨ 65535 ≤ v)
      · right
        left
        unfold Server.getInstance
        rw [hp]
        dsimp only
        unfold Port.isValid
        rw [if_pos (Or.inr hc)]
      · right
        right
        unfold Server.getInstance
        rw [hp]
        dsimp only
        unfold Port.isValid
        have hnc : ¬ ((({ value := v } : Port).nan = true)
            ∨ ({ value := v } : Port).value ≤ 1024
            ∨ 65535 ≤ ({ value := v } : Port).value) := by
          intro hcon
          rcases hcon with h1 | h2
          · simp at h1
          · exact hc h2
        rw [if_neg hnc]
        dsimp only
        rw [h]
        rfl

/-- Counterexample to C4 as stated: after a successful first call with port
`8080`, a subsequent call with port argument `80` does not return the same
instance unchanged — it throws the port-range error instead. -/
theorem claim4_getInstance_counterexample :
    Server.getInstance { inst := none, bindCount := 0 } "10.0.0.1" "8080"
        = .ok ({ ip := "10.0.0.1", port := 8080 }, srvSt1)
    ∧ Server.getInstance srvSt1 "10.0.0.1" "80"
        = .error (.invalidArguments "Port should be within [1024, 65535]") :=
  ⟨rfl, rfl⟩

/-- Claim C4 amended: once the singleton exists, every call to the accessor
that returns successfully (in particular every call whose port argument
passes validation) returns the very same instance with the static state
unchanged, and no sequence of further calls ever changes the state — so the
listening socket is bound exactly once; but a subsequent call with an
invalid port argument throws instead of returning the instance. -/
theorem claim4_getInstance_singleton (st : ServerState) (srv : Server) (localIP p : String)
    (h : st.inst = some srv) :
    (∀ srv' st', Server.getInstance st localIP p = .ok (srv', st') → srv' = srv ∧ st' = st)
    ∧ (∀ ports : List String, runGetInstances st localIP ports = st) := by
  constructor
  · intro srv' st' hok
    rcases getInstance_of_inst st srv localIP p h with he | he | he
    · rw [hok] at he
      exact Except.noConfusion he
    · rw [hok] at he
      exact Except.noConfusion he
    · rw [hok] at he
      have hpair := Except.ok.inj he
      exact ⟨congrArg Prod.fst hpair, congrArg Prod.snd hpair⟩
  · intro ports
    induction ports with
    | nil => rfl
    | cons q rest ih =>
        unfold runGetInstances
        rw [List.foldl_cons]
        have hstep : (match Server.getInstance st localIP q with
            | .ok r => r.2
            | .error _ => st) = st := by
          rcases getInstance_of_inst st srv localIP q h with he | he | he <;> rw [he]
        rw [hstep]
        exact ih

/-- Witness for C4's amended theorem: from the bound state, three further
accessor calls (one valid port, one out-of-range, one non-numeric) leave
the singleton state — and hence the bind count — unchanged. -/
theorem claim4_getInstance_singleton_witness :
    runGetInstances srvSt1 "10.0.0.1" ["9999", "80", "abc"] = srvSt1 :=
  (claim4_getInstance_singleton srvSt1 { ip := "10.0.0.1", port := 8080 }
    "10.0.0.1" "9999" rfl).2 ["9999", "80", "abc"]

/-- Claim C5: the code diverges from the claim for numeric out-of-range
ports.  At startup, `getInstance "80"` (or `"70000"`) raises the
`InvalidArgumentsError` thrown inside `Port.isValid`, not an `InvalidPort`
error — the `InvalidPortError` branch guarding `port.isValid()` in
`getInstance` is unreachable because `isValid` never returns `false`.  Only
a non-numeric argument yields an `InvalidPort` error. -/
theorem claim5_port_error_kind :
    Server.getInstance { inst := none, bindCount := 0 } "10.0.0.1" "80"
        = .error (.invalidArguments "Port should be within [1024, 65535]")
    ∧ Server.getInstance { inst := none, bindCount := 0 } "10.0.0.1" "70000"
        = .error (.invalidArguments "Port should be within [1024, 65535]")
    ∧ Server.getInstance { inst := none, bindCount := 0 } "10.0.0.1" "abc"
        = .error (.invalidPort "Please provide a valid integer port number!") :=
  ⟨rfl, rfl, rfl⟩

/-! ### Claim C6 -/

/-- Claim C6: `sendMessage(id, text)` fails with the connection-not-found
error and leaves the table unchanged when no entry has identifier `id`;
when an entry is found, it succeeds, leaves the table entries and the
next-identifier counter untouched, and appends exactly the raw text to the
data written on that entry's socket. -/
theorem claim6_sendMessage_spec (m : ConnectionsManager) (id : Int) (text : String)
    (hwf : WF m = true) :
    ((∀ c ∈ m.connections, c.id ≠ id) →
        m.sendMessage id text
            = .error (.connectionError
                ("Connection with id " ++ toString id ++ " not found!"))
        ∧ runCommand m (m.sendMessage id text) = m)
    ∧ (∀ conn, m.connections.find? (fun c => c.id == id) = some conn →
        exceptOk (m.sendMessage id text) = true
        ∧ (runCommand m (m.sendMessage id text)).connections = m.connections
        ∧ (runCommand m (m.sendMessage id text)).nextId = m.nextId
        ∧ ((runCommand m (m.sendMessage id text)).sockets[conn.sid]?)
            = (m.sockets[conn.sid]?).map
                (fun s => { s with written := s.written ++ [text] })) := by
  constructor
  · intro habs
    have hfind : m.connections.find? (fun c => c.id == id) = none := by
      apply List.find?_eq_none.mpr
      intro c hcmem
      simp [habs c hcmem]
    constructor
    · unfold ConnectionsManager.sendMessage
      rw [hfind]
    · unfold ConnectionsManager.sendMessage
      rw [hfind]
      rfl
  · intro conn hfind
    have hmem : conn ∈ m.connections := List.mem_of_find?_eq_some hfind
    have hsidlt : conn.sid < m.sockets.length := ((WF_iff m).mp hwf).2.2 conn hmem
    have hsend : m.sendMessage id text = .ok (m.writeSocket conn.sid text) := by
      unfold ConnectionsManager.sendMessage
      rw [hfind]
    refine ⟨?_, ?_, ?_, ?_⟩
    · rw [hsend]
      rfl
    · rw [hsend]
      simp only [runCommand]
      exact writeSocket_connections m conn.sid text
    · rw [hsend]
      simp only [runCommand]
      exact writeSocket_nextId m conn.sid text
    · rw [hsend]
      simp only [runCommand]
      unfold ConnectionsManager.writeSocket
      rw [List.getElem?_eq_getElem hsidlt]
      dsimp only
      rw [List.getElem?_set_self hsidlt]
      rfl

/-- Witness for C6: `send 99 hi` on the empty table raises the not-found
error and leaves the table empty, and on the two-connection table a send to
id 2 succeeds and appends exactly `"hi"` to that connection's socket. -/
theorem claim6_sendMessage_witness :
    (emptyManager.sendMessage 99 "hi"
        = .error (.connectionError
            ("Connection with id " ++ toString (99 : Int) ++ " not found!"))
      ∧ runCommand emptyManager (emptyManager.sendMessage 99 "hi") = emptyManager)
    ∧ (exceptOk (mgr2.sendMessage 2 "hi") = true
      ∧ (runCommand mgr2 (mgr2.sendMessage 2 "hi")).connections = mgr2.connections
      ∧ (runCommand mgr2 (mgr2.sendMessage 2 "hi")).nextId = mgr2.nextId
      ∧ ((runCommand mgr2 (mgr2.sendMessage 2 "hi")).sockets[(1 : Nat)]?)
          = (mgr2.sockets[(1 : Nat)]?).map
              (fun s => { s with written := s.written ++ ["hi"] })) :=
  ⟨(claim6_sendMessage_spec emptyManager 99 "hi" (by decide)).1 (by decide),
    (claim6_sendMessage_spec mgr2 2 "hi" (by decide)).2
      { id := 2, remoteIP := "10.0.0.6", remotePort := { value := 9001 }, sid := 1 }
      (by decide)⟩

/-! ### Claim C7 -/

/-- Claim C7: a socket error event never removes an entry from the table:
the registered error handler only logs, so after the event every entry is
still present with identifier, remote address and remote port unchanged (in
fact the whole manager is untouched), and no socket event at all changes
the number of entries — removal happens only through explicit
`removeConnection`. -/
theorem claim7_error_event_preserves (m : ConnectionsManager) (sid : Nat) :
    (m.applyEvent (.errored sid)).1 = m
    ∧ (∀ c ∈ m.connections, c ∈ (m.applyEvent (.errored sid)).1.connections)
    ∧ (m.applyEvent (.errored sid)).2 = ["server is offline.."]
    ∧ (∀ e : SockEvent, (m.applyEvent e).1.connections.length = m.connections.length) := by
  refine ⟨rfl, ?_, rfl, ?_⟩
  · intro c hc
    exact hc
  · intro e
    cases e with
    | errored s => rfl
    | connected s =>
        show ((m.updateConnectionIds).writeSocket s " joined").connections.length
            = m.connections.length
        rw [writeSocket_connections]
        dsimp only [ConnectionsManager.updateConnectionIds]
        exact length_updateIdsFrom 0 m.connections

/-- Witness for C7: on the two-connection table, the first entry survives a
transport error event untouched. -/
theorem claim7_error_event_witness :
    ({ id := 1, remoteIP := "10.0.0.5", remotePort := { value := 9000 },
        sid := 0 } : Connection)
      ∈ (mgr2.applyEvent (.errored 0)).1.connections :=
  (claim7_error_event_preserves mgr2 0).2.1
    { id := 1, remoteIP := "10.0.0.5", remotePort := { value := 9000 }, sid := 0 }
    (by decide)

/-! ### Claim C8 -/

/-- Counterexample to C8 as stated: `terminate` does not reject extra
arguments — `terminate 1 2` on the two-connection table succeeds (the
second argument is ignored and connection 1 is removed), and a
digit-leading non-integer token such as `3abc` passes the integer check and
reaches `removeConnection` (failing there with a not-found error, not an
invalid-arguments error). -/
theorem claim8_terminate_extra_args_counterexample :
    (exceptOk (TerminateCommand.execute mgr2 ["1", "2"]) = true
      ∧ (runCommand mgr2 (TerminateCommand.execute mgr2 ["1", "2"])).connections.map connView
          = [("10.0.0.6", 9001, 1)])
    ∧ TerminateCommand.execute emptyManager ["3abc"]
        = .error (.connectionError ("Connection with id 3 not found!")) :=
  ⟨by decide, rfl⟩

/-- Claim C8 amended: `terminate` raises the invalid-arguments error only
when it receives zero arguments or when `parseInt` finds no leading integer
in the first argument; any further arguments are ignored, and whenever the
first argument parses, the command delegates directly to
`removeConnection` on the parsed value. -/
theorem claim8_terminate_arity (m : ConnectionsManager) (args : List String) :
    (args = [] →
        TerminateCommand.execute m args
          = .error (.invalidArguments "Expected a single argument: connectionId!"))
    ∧ (∀ a0 rest, args = a0 :: rest → parseIntJS a0 = none →
        TerminateCommand.execute m args
          = .error (.invalidArguments "ConnectionId must be a number!"))
    ∧ (∀ a0 rest v, args = a0 :: rest → parseIntJS a0 = some v →
        TerminateCommand.execute m args = m.removeConnection v) := by
  refine ⟨?_, ?_, ?_⟩
  · intro h
    subst h
    rfl
  · intro a0 rest h hp
    subst h
    show (match parseIntJS a0 with
        | none => Except.error (.invalidArguments "ConnectionId must be a number!")
        | some connectionId => m.removeConnection connectionId)
      = Except.error (.invalidArguments "ConnectionId must be a number!")
    rw [hp]
  · intro a0 rest v h hp
    subst h
    show (match parseIntJS a0 with
        | none => Except.error (.invalidArguments "ConnectionId must be a number!")
        | some connectionId => m.removeConnection connectionId)
      = m.removeConnection v
    rw [hp]

/-- Witness for C8's amended theorem: `terminate 5 x` ignores the extra
token and delegates to `removeConnection 5`. -/
theorem claim8_terminate_arity_witness :
    TerminateCommand.execute emptyManager ["5", "x"] = emptyManager.removeConnection 5 :=
  (claim8_terminate_arity emptyManager ["5", "x"]).2.2 "5" ["x"] 5 rfl (by decide)

/-! ### Claim C9 -/

/-- Claim C9: `list` executes as a pure read — the manager comes back
untouched next to the rendering — and the rendering is the header row
followed by one `id`/`IP`/`port` row per entry in table order; after
`connect 10.0.0.5 9000` and `connect 10.0.0.6 9001` the rows are
`1 10.0.0.5 9000` then `2 10.0.0.6 9001`. -/
theorem claim9_list_rows (m : ConnectionsManager) :
    ListCommand.execute m [] = .ok (m, m.listConnections)
    ∧ m.listConnections
        = "id\tIP Address\tPort\n" ++ String.intercalate "\n"
            (m.connections.map (fun c =>
              toString c.id ++ "\t" ++ c.remoteIP ++ "\t" ++ toString c.remotePort.value))
    ∧ mgr2.listConnections
        = "id\tIP Address\tPort\n" ++ "1\t10.0.0.5\t9000\n" ++ "2\t10.0.0.6\t9001" :=
  ⟨rfl, rfl, by decide⟩

/-! ### Claim C10 -/

theorem parseIntJS_digit_lead (t : String) (c : Char) (cs : List Char)
    (hd : t.data = c :: cs) (hdg : c.isDigit = true) :
    parseIntJS t = some ((digitsToNat ((c :: cs).takeWhile Char.isDigit) : Int)) := by
  have hm : ¬ (c = '-') := by
    intro hcon
    rw [hcon] at hdg
    exact absurd hdg (by decide)
  have hp2 : ¬ (c = '+') := by
    intro hcon
    rw [hcon] at hdg
    exact absurd hdg (by decide)
  have hws : isJsWhitespace c = false := by
    unfold isJsWhitespace
    by_contra hcon
    rw [Bool.not_eq_false] at hcon
    simp only [Bool.or_eq_true, decide_eq_true_eq] at hcon
    rcases hcon with ((h1 | h2) | h3) | h4
    · rw [h1] at hdg
      exact absurd hdg (by decide)
    · rw [h2] at hdg
      exact absurd hdg (by decide)
    · rw [h3] at hdg
      exact absurd hdg (by decide)
    · rw [h4] at hdg
      exact absurd hdg (by decide)
  have hsign : parseSign (c :: cs) = (1, c :: cs) := by
    show (if c = '-' then ((-1 : Int), cs) else if c = '+' then ((1 : Int), cs)
        else ((1 : Int), c :: cs)) = ((1 : Int), c :: cs)
    rw [if_neg hm, if_neg hp2]
  unfold parseIntJS
  rw [hd]
  rw [List.dropWhile_cons, hws]
  simp only [Bool.false_eq_true, if_false, hsign, List.takeWhile_cons_of_pos hdg,
    List.isEmpty_cons, one_mul]

theorem removeConnection_never_invalidArguments (m : ConnectionsManager) (id : Int)
    (msg : String) :
    ¬ (m.removeConnection id = .error (.invalidArguments msg)) := by
  unfold ConnectionsManager.removeConnection
  cases hf : List.findIdx? (fun c => c.id == id) m.connections 0 with
  | none =>
      intro hcon
      exact ProgErr.noConfusion (Except.error.inj hcon)
  | some idx =>
      intro hcon
      exact Except.noConfusion hcon

/-- Claim C10: an identifier token that starts with a decimal digit is
accepted by the integer-argument check of `terminate` and `send`: the token
parses to the value of its leading digit run and the command proceeds to
the table lookup with that number; the invalid-arguments integer error is
raised exactly for tokens in which `parseInt` finds no leading integer. -/
theorem claim10_leading_digit_token (m : ConnectionsManager) (t : String) (args : List String)
    (h : leadsWithDigit t = true) :
    parseIntJS t = some (leadingIntVal t)
    ∧ TerminateCommand.execute m (t :: args) = m.removeConnection (leadingIntVal t)
    ∧ (∀ tok : String, ∀ args2 : List String,
        (TerminateCommand.execute m (tok :: args2)
            = .error (.invalidArguments "ConnectionId must be a number!")
          ↔ parseIntJS tok = none))
    ∧ (∀ msgTok : String, ∀ msgRest : List String,
        SendCommand.execute m (t :: msgTok :: msgRest)
          = if String.intercalate " " (msgTok :: msgRest) = ""
            then .error (.invalidArguments "Message cannot be empty!")
            else m.sendMessage (leadingIntVal t) (String.intercalate " " (msgTok :: msgRest))) := by
  obtain ⟨c, cs, hd, hdg⟩ : ∃ c cs, t.data = c :: cs ∧ c.isDigit = true := by
    cases hd : t.data with
    | nil =>
        unfold leadsWithDigit at h
        rw [hd] at h
        exact absurd h (by decide)
    | cons c cs =>
        refine ⟨c, cs, rfl, ?_⟩
        unfold leadsWithDigit at h
        rw [hd] at h
        exact h
  have hval : leadingIntVal t = (digitsToNat ((c :: cs).takeWhile Char.isDigit) : Int) := by
    unfold leadingIntVal
    rw [hd]
  have hparse : parseIntJS t = some (leadingIntVal t) := by
    rw [hval]
    exact parseIntJS_digit_lead t c cs hd hdg
  refine ⟨hparse, ?_, ?_, ?_⟩
  · show (match parseIntJS t with
        | none => Except.error (.invalidArguments "ConnectionId must be a number!")
        | some connectionId => m.removeConnection connectionId)
      = m.removeConnection (leadingIntVal t)
    rw [hparse]
  · intro tok args2
    cases hp : parseIntJS tok with
    | none =>
        constructor
        · intro _
          rfl
        · intro _
          show (match parseIntJS tok with
              | none => Except.error (.invalidArguments "ConnectionId must be a number!")
              | some connectionId => m.removeConnection connectionId)
            = Except.error (.invalidArguments "ConnectionId must be a number!")
          rw [hp]
    | some v =>
        constructor
        · intro hcon
          exfalso
          have hex : TerminateCommand.execute m (tok :: args2) = m.removeConnection v := by
            show (match parseIntJS tok with
                | none => Except.error (.invalidArguments "ConnectionId must be a number!")
                | some connectionId => m.removeConnection connectionId)
              = m.removeConnection v
            rw [hp]
          rw [hex] at hcon
          exact removeConnection_never_invalidArguments m v _ hcon
        · intro hnone
          exact Option.noConfusion hnone
  · intro msgTok msgRest
    show (match parseIntJS t with
        | none => Except.error (.invalidArguments "ConnectionId must be a number!")
        | some connectionId =>
            if String.intercalate " " (msgTok :: msgRest) = ""
            then Except.error (.invalidArguments "Message cannot be empty!")
            else m.sendMessage connectionId (String.intercalate " " (msgTok :: msgRest)))
      = if String.intercalate " " (msgTok :: msgRest) = ""
        then Except.error (.invalidArguments "Message cannot be empty!")
        else m.sendMessage (leadingIntVal t) (String.intercalate " " (msgTok :: msgRest))
    rw [hparse]

/-- Witness for C10: `terminate 3abc` parses the token as 3 and proceeds to
`removeConnection 3`. -/
theorem claim10_leading_digit_witness :
    (parseIntJS "3abc" = some (leadingIntVal "3abc")
      ∧ TerminateCommand.execute emptyManager ["3abc"]
          = emptyManager.removeConnection (leadingIntVal "3abc"))
    ∧ leadingIntVal "3abc" = 3 :=
  ⟨⟨(claim10_leading_digit_token emptyManager "3abc" [] (by decide)).1,
    (claim10_leading_digit_token emptyManager "3abc" [] (by decide)).2.1⟩,
    by decide⟩
